import Mathlib

/-!
Verification of the client-side synchronized data view of the Panchayat
database management system: the filter/sort/paginate query pipeline of
the citizen table, the page-number windowing, the local-cache mutation
handlers of the top-level view, and the citizen form validation rules.
Machine integers of the source are modelled as Int, JavaScript NaN as
Option.none, and failed remote calls as Except.error.
-/

namespace Panchayat

/-- Citizen record as held in the local cache (the Citizen interface of
the top-level view and the citizen table). -/
structure Citizen where
  aadhar_number : String
  name : String
  dob : String
  age : Int
  gender : String
  address : String
  marital_status : String
  father_name : String
  mother_name : String
  spouse_name : String
  education : String
  occupation : String
  village_id : Int
  status : String
  remarks : String
deriving DecidableEq, Repr

/-- Village record as held in the local cache of the top-level view. -/
structure Village where
  id : Int
  name : String
  district : String
  pincode : String
deriving DecidableEq, Repr

/-- Village row as returned by the remote store (database column names). -/
structure VillageRow where
  village_id : Int
  village_name : String
  district_name : String
  pincode : String
deriving DecidableEq, Repr

/-- Error from a failed remote-store call. -/
structure RemoteErr where
  msg : String
deriving DecidableEq, Repr

/-- Local cache of the top-level view: the villages list and the
citizens list. -/
structure HomeState where
  villages : List Village
  citizens : List Citizen
deriving DecidableEq, Repr

/-- Helper building a citizen with the fields relevant to the query
pipeline; the remaining fields take fixed values. -/
def mkCitizen (a n : String) (age vid : Int) : Citizen :=
  { aadhar_number := a, name := n, dob := "", age := age, gender := "male",
    address := "", marital_status := "single", father_name := "",
    mother_name := "", spouse_name := "", education := "", occupation := "",
    village_id := vid, status := "alive", remarks := "" }

/-! ## String helpers: JavaScript String.includes and comparison -/

/-- Whether the first character list occurs at the head of the second. -/
def charsLeadWith : List Char → List Char → Bool
  | [], _ => true
  | _ :: _, [] => false
  | a :: as, b :: bs => a = b && charsLeadWith as bs

/-- Whether the first character list occurs contiguously anywhere in the
second. -/
def charsHasSub (sub : List Char) : List Char → Bool
  | [] => charsLeadWith sub []
  | c :: cs => charsLeadWith sub (c :: cs) || charsHasSub sub cs

/-- Model of JavaScript s.includes(sub). -/
def strIncludes (s sub : String) : Bool :=
  charsHasSub sub.toList s.toList

/-- Three-way comparison of character lists by code point, returning a
JavaScript-style negative/zero/positive number. -/
def charListCmp : List Char → List Char → Int
  | [], [] => 0
  | [], _ :: _ => -1
  | _ :: _, [] => 1
  | a :: as, b :: bs => if a < b then -1 else if b < a then 1 else charListCmp as bs

/-- Model of localeCompare: string comparison by code point (the locale
order is environment-dependent; equal strings compare to 0 in every
locale, which is all the stability claims rely on). -/
def strCmp (a b : String) : Int :=
  charListCmp a.toList b.toList

/-! ## The query pipeline of the citizen table -/

/-- Search mode of the citizen table: by name or by Aadhar number. -/
inductive SearchType where
  | byName
  | byAadhar
deriving DecidableEq, Repr

/-- Sort field of the citizen table. -/
inductive SortField where
  | name
  | aadhar
  | age
deriving DecidableEq, Repr

/-- Sort direction of the citizen table. -/
inductive SortOrder where
  | asc
  | desc
deriving DecidableEq, Repr

/-- Filter step of the citizen table: empty search term passes
everything; otherwise case-insensitive substring match on the name, or
raw substring match on the Aadhar number. -/
def filteredCitizens (st : SearchType) (term : String) (citizens : List Citizen) : List Citizen :=
  citizens.filter fun c =>
    if term = "" then true
    else match st with
      | SearchType.byName => strIncludes c.name.toLower term.toLower
      | SearchType.byAadhar => strIncludes c.aadhar_number term

/-- Comparator passed to the sort, as in the source: localeCompare on
name or Aadhar number, numeric subtraction on age, reversed for
descending order. -/
def citizenCmp (sf : SortField) (so : SortOrder) (a b : Citizen) : Int :=
  match sf with
  | SortField.name =>
    match so with
    | SortOrder.asc => strCmp a.name b.name
    | SortOrder.desc => strCmp b.name a.name
  | SortField.aadhar =>
    match so with
    | SortOrder.asc => strCmp a.aadhar_number b.aadhar_number
    | SortOrder.desc => strCmp b.aadhar_number a.aadhar_number
  | SortField.age =>
    match so with
    | SortOrder.asc => a.age - b.age
    | SortOrder.desc => b.age - a.age

/-- Insertion of x into a list, placing x before the first element it
does not compare strictly greater than; used to model the stable sort. -/
def ins (c : α → α → Int) (x : α) : List α → List α
  | [] => [x]
  | z :: zs => if c x z ≤ 0 then x :: z :: zs else z :: ins c x zs

/-- Stable comparator sort, modelling JavaScript Array.prototype.sort
(whose specification requires stability). -/
def sortByC (c : α → α → Int) : List α → List α
  | [] => []
  | x :: xs => ins c x (sortByC c xs)

/-- Sort step of the citizen table. -/
def sortedCitizens (sf : SortField) (so : SortOrder) (l : List Citizen) : List Citizen :=
  sortByC (citizenCmp sf so) l

/-- Model of JavaScript Array.prototype.slice with the ECMAScript index
normalization: negative indices count from the end, indices are clamped
to the array bounds. -/
def jsSlice (l : List α) (s e : Int) : List α :=
  let len : Int := l.length
  let k : Int := if s < 0 then max (len + s) 0 else min s len
  let fin : Int := if e < 0 then max (len + e) 0 else min e len
  (l.drop k.toNat).take (fin - k).toNat

/-- Page count of the citizen table: Math.ceil(length / 10). -/
def totalPages (l : List Citizen) : Nat :=
  (l.length + 9) / 10

/-- Paginate step of the citizen table: slice from (page-1)*10, ten
items per page. -/
def paginatedCitizens (page : Int) (l : List Citizen) : List Citizen :=
  jsSlice l ((page - 1) * 10) ((page - 1) * 10 + 10)

/-- Previous-page control: Math.max(current - 1, 1). -/
def prevClick (current : Int) : Int :=
  max (current - 1) 1

/-- Next-page control: Math.min(current + 1, totalPages). -/
def nextClick (current total : Int) : Int :=
  min (current + 1) total

/-- Item of the page-number navigation strip: a page number or an
ellipsis marker. -/
inductive PageItem where
  | num (n : Int)
  | ellipsis
deriving DecidableEq, Repr

/-- Inclusive integer range [a..b], modelling the for loops of the
page-number generator. -/
def intRange (a b : Int) : List Int :=
  (List.range (b - a + 1).toNat).map fun i => a + i

/-- The page-number window generator of the citizen table. -/
def getPageNumbers (total current : Int) : List PageItem :=
  if total ≤ 5 then
    (intRange 1 total).map PageItem.num
  else if current ≤ 3 then
    (intRange 1 4).map PageItem.num ++ [PageItem.ellipsis, PageItem.num total]
  else if total - 2 ≤ current then
    [PageItem.num 1, PageItem.ellipsis] ++ (intRange (total - 3) total).map PageItem.num
  else
    [PageItem.num 1, PageItem.ellipsis, PageItem.num (current - 1),
     PageItem.num current, PageItem.num (current + 1), PageItem.ellipsis,
     PageItem.num total]

/-! ## Local-cache mutation handlers of the top-level view -/

/-- Conversion of a remote village row to the local cache shape, as done
in fetchData. -/
def homeVillageOfRow (v : VillageRow) : Village :=
  { id := v.village_id, name := v.village_name, district := v.district_name,
    pincode := v.pincode }

/-- Body of the try block of fetchData: both table fetches must succeed,
giving the new villages and citizens lists; the first failure aborts. -/
def fetchDataCore (vr : Except RemoteErr (List VillageRow))
    (cr : Except RemoteErr (List Citizen)) :
    Except RemoteErr (List Village × List Citizen) := do
  let villagesData ← vr
  let citizensData ← cr
  pure (villagesData.map homeVillageOfRow, citizensData)

/-- The fetchData operation of the top-level view: on success both local
mappings are replaced wholesale; on any fetch failure the previous state
is kept and the error is reported. -/
def fetchData (prev : HomeState) (vr : Except RemoteErr (List VillageRow))
    (cr : Except RemoteErr (List Citizen)) : HomeState × Option RemoteErr :=
  match fetchDataCore vr cr with
  | Except.error e => (prev, some e)
  | Except.ok (v, c) => ({ villages := v, citizens := c }, none)

/-- The handleDeleteVillage operation of the top-level view: on remote
acknowledgement, the village is filtered out of the villages list and
every citizen with that village_id is filtered out of the citizens list;
on failure nothing changes locally. -/
def handleDeleteVillage (id : Int) (remote : Except RemoteErr Unit)
    (s : HomeState) : HomeState :=
  match remote with
  | Except.error _ => s
  | Except.ok _ =>
    { villages := s.villages.filter fun v => v.id != id,
      citizens := s.citizens.filter fun c => c.village_id != id }

/-- The handleUpdateCitizen operation of the top-level view: on remote
acknowledgement, the citizens list is mapped replacing the entry with
the matching Aadhar number; on failure the state is untouched and the
error is reported. -/
def handleUpdateCitizen (u : Citizen) (remote : Except RemoteErr Unit)
    (s : HomeState) : HomeState × Option RemoteErr :=
  match remote with
  | Except.error e => (s, some e)
  | Except.ok _ =>
    ({ s with citizens :=
        s.citizens.map fun c => if c.aadhar_number = u.aadhar_number then u else c },
     none)

/-- The handleDeleteCitizen operation of the top-level view: on remote
acknowledgement, entries with the given Aadhar number are filtered out
of the citizens list; the villages list is not touched. -/
def handleDeleteCitizen (k : String) (remote : Except RemoteErr Unit)
    (s : HomeState) : HomeState :=
  match remote with
  | Except.error _ => s
  | Except.ok _ =>
    { s with citizens := s.citizens.filter fun c => c.aadhar_number != k }

/-! ## Citizen form: validation schema and submission conversion -/

/-- Values of the citizen registration form. The village selection is an
Option so that the absent-versus-empty distinction of the schema rule is
expressible; every other field is a plain string as in the form state. -/
structure CitizenForm where
  aadhar_number : String
  village_id : Option String
  name : String
  dob : String
  age : String
  gender : String
  address : String
  marital_status : String
  father_name : String
  mother_name : String
  spouse_name : String
  status : String
  education : String
  occupation : String
  remarks : String
deriving DecidableEq, Repr

/-- The village_id rule of the form schema: a required string. It
rejects only an absent value; any present string, the empty string
included, passes. -/
def villageIdRule (v : Option String) : Bool :=
  v.isSome

/-- The citizen form validation schema: Aadhar number exactly 12 digits,
village required, name at least 2 characters, age a nonempty digit
string, gender and marital status and life status restricted to their
enumerations, address at least 5 characters, father and mother name at
least 2 characters, spouse name and remarks and dob and education and
occupation unconstrained strings. -/
def citizenFormValid (f : CitizenForm) : Bool :=
  (f.aadhar_number.length = 12) &&
  f.aadhar_number.toList.all Char.isDigit &&
  villageIdRule f.village_id &&
  decide (2 ≤ f.name.length) &&
  (f.age != "") &&
  f.age.toList.all Char.isDigit &&
  ["male", "female", "other"].contains f.gender &&
  decide (5 ≤ f.address.length) &&
  ["single", "married", "divorced", "widowed"].contains f.marital_status &&
  decide (2 ≤ f.father_name.length) &&
  decide (2 ≤ f.mother_name.length) &&
  ["alive", "dead"].contains f.status

/-- Numeric value of a digit list, most significant first. -/
def digitsVal (ds : List Char) : Nat :=
  ds.foldl (fun acc c => acc * 10 + (c.toNat - '0'.toNat)) 0

/-- Model of JavaScript parseInt in base 10: leading whitespace is
skipped, an optional sign is read, then the longest digit run; if there
is no digit the result is NaN, modelled as none. -/
def jsParseInt (s : String) : Option Int :=
  let cs := s.toList.dropWhile Char.isWhitespace
  match cs with
  | '-' :: rest =>
    let ds := rest.takeWhile Char.isDigit
    if ds.isEmpty then none else some (-(digitsVal ds : Int))
  | '+' :: rest =>
    let ds := rest.takeWhile Char.isDigit
    if ds.isEmpty then none else some (digitsVal ds : Int)
  | _ =>
    let ds := cs.takeWhile Char.isDigit
    if ds.isEmpty then none else some (digitsVal ds : Int)

/-- Citizen object built from a submitted form, with the numeric fields
parsed as in handleSubmit; a NaN age or village_id is none. -/
structure SubmittedCitizen where
  aadhar_number : String
  name : String
  dob : String
  age : Option Int
  gender : String
  address : String
  marital_status : String
  father_name : String
  mother_name : String
  spouse_name : Option String
  status : String
  education : String
  occupation : String
  remarks : Option String
  village_id : Option Int
deriving DecidableEq, Repr

/-- The citizenData conversion of handleSubmit: age and village_id go
through parseInt, spouse name and remarks fall back to null when empty. -/
def citizenDataOfForm (f : CitizenForm) : SubmittedCitizen :=
  { aadhar_number := f.aadhar_number, name := f.name, dob := f.dob,
    age := jsParseInt f.age, gender := f.gender, address := f.address,
    marital_status := f.marital_status, father_name := f.father_name,
    mother_name := f.mother_name,
    spouse_name := if f.spouse_name = "" then none else some f.spouse_name,
    status := f.status, education := f.education, occupation := f.occupation,
    remarks := if f.remarks = "" then none else some f.remarks,
    village_id := jsParseInt (f.village_id.getD "") }

/-! ## Helper lemmas -/

theorem charListCmp_self : ∀ l : List Char, charListCmp l l = 0
  | [] => rfl
  | a :: as => by simp [charListCmp, lt_irrefl, charListCmp_self as]

theorem strCmp_self (s : String) : strCmp s s = 0 :=
  charListCmp_self s.toList

theorem filter_ins_pos (c : α → α → Int) (p : α → Bool) (x : α) (hx : p x = true)
    (h : ∀ z, p z = true → c x z ≤ 0) :
    ∀ l : List α, (ins c x l).filter p = x :: l.filter p
  | [] => by simp [ins, hx]
  | z :: zs => by
    by_cases hcz : c x z ≤ 0
    · simp [ins, hcz, hx]
    · have hz : p z = false := by
        cases hpz : p z
        · rfl
        · exact absurd (h z hpz) hcz
      simp [ins, hcz, hz, filter_ins_pos c p x hx h zs]

theorem filter_ins_neg (c : α → α → Int) (p : α → Bool) (x : α) (hx : p x = false) :
    ∀ l : List α, (ins c x l).filter p = l.filter p
  | [] => by simp [ins, hx]
  | z :: zs => by
    by_cases hcz : c x z ≤ 0
    · simp [ins, hcz, hx]
    · simp [ins, hcz, List.filter_cons, filter_ins_neg c p x hx zs]

/-- Stability of the comparator sort in filter form: when all elements
accepted by p compare mutually nonpositive, the p-accepted subsequence
of the sorted output is exactly the p-accepted subsequence of the
input. -/
theorem sortByC_filter (c : α → α → Int) (p : α → Bool)
    (h : ∀ x y, p x = true → p y = true → c x y ≤ 0) :
    ∀ l : List α, (sortByC c l).filter p = l.filter p
  | [] => rfl
  | x :: xs => by
    cases hx : p x
    · rw [sortByC, filter_ins_neg c p x hx, sortByC_filter c p h xs]
      simp [List.filter_cons, hx]
    · rw [sortByC, filter_ins_pos c p x hx (fun z hz => h x z hx hz),
        sortByC_filter c p h xs]
      simp [List.filter_cons, hx]

/-- Whether citizen b has the same active sort key as citizen a. -/
def keyMatches (sf : SortField) (a b : Citizen) : Bool :=
  match sf with
  | SortField.name => b.name == a.name
  | SortField.aadhar => b.aadhar_number == a.aadhar_number
  | SortField.age => b.age == a.age

theorem keyMatches_cmp (sf : SortField) (so : SortOrder) (a x y : Citizen)
    (hx : keyMatches sf a x = true) (hy : keyMatches sf a y = true) :
    citizenCmp sf so x y ≤ 0 := by
  cases sf <;> cases so <;>
    simp only [keyMatches, beq_iff_eq] at hx hy <;>
    simp [citizenCmp, hx, hy, strCmp_self]

theorem count_filter_ite {α : Type} [DecidableEq α] (p : α → Bool) (l : List α) (a : α) :
    (l.filter p).count a = if p a = true then l.count a else 0 := by
  by_cases h : p a = true
  · rw [if_pos h, List.count_filter h]
  · rw [if_neg h]
    exact List.count_eq_zero.mpr fun hm => h (List.mem_filter.mp hm).2

/-! ## Claim theorems: the sort and the mutation handlers -/

/-- Example snapshot used in the stability claim: ages 38, 33, 28. -/
def exAges : List Citizen :=
  [mkCitizen "111111111111" "x" 38 1, mkCitizen "222222222222" "y" 33 1,
   mkCitizen "333333333333" "z" 28 1]

/-- Two records agreeing on all three sort keys, differing elsewhere. -/
def pairA : Citizen := mkCitizen "444444444444" "same" 30 1

/-- Second record of the equal-key pair. -/
def pairB : Citizen := mkCitizen "444444444444" "same" 30 2

/-- C4: the QueryView sort is stable. For every filter spec, sort field
and direction, elements sharing the active sort key keep the relative
order they had in the filtered sequence; concretely, sorting ages
38, 33, 28 descending by age returns them unchanged, and a pair of
records equal on all three keys is preserved by every sort field in
both directions. -/
theorem sort_stability :
    (∀ (sf : SortField) (so : SortOrder) (st : SearchType) (term : String)
        (cs : List Citizen) (a : Citizen),
      (sortedCitizens sf so (filteredCitizens st term cs)).filter (keyMatches sf a)
        = (filteredCitizens st term cs).filter (keyMatches sf a))
    ∧ sortedCitizens SortField.age SortOrder.desc exAges = exAges
    ∧ (∀ sf so, sortedCitizens sf so [pairA, pairB] = [pairA, pairB]) := by
  refine ⟨?_, by decide, ?_⟩
  · intro sf so st term cs a
    exact sortByC_filter _ _ (fun x y hx hy => keyMatches_cmp sf so a x y hx hy) _
  · intro sf so
    cases sf <;> cases so <;> decide

/-- C2: after an acknowledged remote village delete, the village with
the given identifier is removed from the villages cache, every citizen
with that village identifier is removed from the citizens cache, and
nothing else is removed or reordered. -/
theorem village_delete_cascade (s : HomeState) (id : Int) :
    (handleDeleteVillage id (Except.ok ()) s).villages.Sublist s.villages
    ∧ (∀ v, v ∈ (handleDeleteVillage id (Except.ok ()) s).villages
        ↔ v ∈ s.villages ∧ v.id ≠ id)
    ∧ (handleDeleteVillage id (Except.ok ()) s).citizens.Sublist s.citizens
    ∧ (∀ c, c ∈ (handleDeleteVillage id (Except.ok ()) s).citizens
        ↔ c ∈ s.citizens ∧ c.village_id ≠ id)
    ∧ (∀ v, (handleDeleteVillage id (Except.ok ()) s).villages.count v
        = if v.id = id then 0 else s.villages.count v)
    ∧ (∀ c, (handleDeleteVillage id (Except.ok ()) s).citizens.count c
        = if c.village_id = id then 0 else s.citizens.count c) := by
  refine ⟨List.filter_sublist _, ?_, List.filter_sublist _, ?_, ?_, ?_⟩
  · intro v; simp [handleDeleteVillage, List.mem_filter]
  · intro c; simp [handleDeleteVillage, List.mem_filter]
  · intro v
    show (s.villages.filter fun v => v.id != id).count v = _
    rw [count_filter_ite]
    by_cases h : v.id = id <;> simp [h]
  · intro c
    show (s.citizens.filter fun c => c.village_id != id).count c = _
    rw [count_filter_ite]
    by_cases h : c.village_id = id <;> simp [h]

/-- C3: a citizen update whose remote call fails leaves the local cache
exactly as it was and surfaces the remote error; on acknowledgement the
only local change is the keyed replacement in the citizens list. -/
theorem update_failure_isolation (s : HomeState) (u : Citizen) (e : RemoteErr) :
    handleUpdateCitizen u (Except.error e) s = (s, some e)
    ∧ (handleUpdateCitizen u (Except.ok ()) s).1.citizens
        = s.citizens.map (fun c => if c.aadhar_number = u.aadhar_number then u else c)
    ∧ (handleUpdateCitizen u (Except.ok ()) s).1.villages = s.villages
    ∧ (handleUpdateCitizen u (Except.ok ()) s).2 = none :=
  ⟨rfl, rfl, rfl, rfl⟩

/-- C7: the load operation retains the previous snapshot in full and
reports the error when either table fetch fails, and replaces both
mappings wholesale when both succeed. -/
theorem load_failure_isolation :
    (∀ (prev : HomeState) (e : RemoteErr) (cr : Except RemoteErr (List Citizen)),
      fetchData prev (Except.error e) cr = (prev, some e))
    ∧ (∀ (prev : HomeState) (vd : List VillageRow) (e : RemoteErr),
      fetchData prev (Except.ok vd) (Except.error e) = (prev, some e))
    ∧ (∀ (prev : HomeState) (vd : List VillageRow) (cd : List Citizen),
      fetchData prev (Except.ok vd) (Except.ok cd)
        = ({ villages := vd.map homeVillageOfRow, citizens := cd }, none)) := by
  refine ⟨?_, ?_, ?_⟩ <;> intros <;> rfl

/-- C10: after an acknowledged remote citizen delete, exactly the
citizens with the given Aadhar number are removed, all other citizens
are kept unchanged in their relative order, and the villages cache is
untouched. -/
theorem citizen_delete_frame (s : HomeState) (k : String) :
    (handleDeleteCitizen k (Except.ok ()) s).villages = s.villages
    ∧ (handleDeleteCitizen k (Except.ok ()) s).citizens.Sublist s.citizens
    ∧ (∀ c, c ∈ (handleDeleteCitizen k (Except.ok ()) s).citizens
        ↔ c ∈ s.citizens ∧ c.aadhar_number ≠ k)
    ∧ (∀ c, (handleDeleteCitizen k (Except.ok ()) s).citizens.count c
        = if c.aadhar_number = k then 0 else s.citizens.count c) := by
  refine ⟨rfl, List.filter_sublist _, ?_, ?_⟩
  · intro c; simp [handleDeleteCitizen, List.mem_filter]
  · intro c
    show (s.citizens.filter fun c => c.aadhar_number != k).count c = _
    rw [count_filter_ite]
    by_cases h : c.aadhar_number = k <;> simp [h]

/-! ## Pagination lemmas and claim theorems -/

theorem paginated_eq_chunk (i : Nat) (l : List Citizen) :
    paginatedCitizens ((i : Int) + 1) l = (l.drop (10 * i)).take 10 := by
  have hs : ((i : Int) + 1 - 1) * 10 = ((10 * i : Nat) : Int) := by push_cast; ring
  simp only [paginatedCitizens, jsSlice, hs]
  rw [if_neg (by omega), if_neg (by omega)]
  rcases le_or_lt ((10 * i : Nat) : Int) (l.length : Int) with hle | hlt
  · rw [min_eq_left hle]
    have hk : (((10 * i : Nat) : Int)).toNat = 10 * i := by omega
    rw [hk, List.take_eq_take]
    simp only [List.length_drop]
    omega
  · rw [min_eq_right (le_of_lt hlt)]
    rw [List.drop_eq_nil_of_le (by omega), List.drop_eq_nil_of_le (by omega)]
    simp

theorem chunks_take : ∀ (m : Nat) (l : List Citizen),
    ((List.range m).flatMap fun i => (l.drop (10 * i)).take 10) = l.take (10 * m)
  | 0, _ => by simp
  | m + 1, l => by
    rw [List.range_succ, List.flatMap_append, chunks_take m l,
      show 10 * (m + 1) = 10 * m + 10 from by ring, List.take_add]
    simp

/-- Concatenation of the pages for page indices 1 through pageCount, in
order. -/
def pagesConcat (l : List Citizen) : List Citizen :=
  (List.range (totalPages l)).flatMap fun i => paginatedCitizens ((i : Int) + 1) l

/-- Example snapshot of five citizens: one page worth of data. -/
def ex5 : List Citizen :=
  [mkCitizen "1" "a" 1 1, mkCitizen "2" "b" 2 1, mkCitizen "3" "c" 3 1,
   mkCitizen "4" "d" 4 1, mkCitizen "5" "e" 5 1]

/-- C1 counterexample: on a non-empty five-citizen snapshot the page
count is 1, yet requesting page 2 returns the empty page rather than
the clamped last valid page, and requesting page 0 also returns the
empty page rather than page 1. -/
theorem paginate_no_clamp_counterexample :
    totalPages ex5 = 1
    ∧ ex5 ≠ []
    ∧ paginatedCitizens 2 ex5 = []
    ∧ paginatedCitizens 2 ex5 ≠ paginatedCitizens 1 ex5
    ∧ paginatedCitizens 0 ex5 = []
    ∧ paginatedCitizens 0 ex5 ≠ paginatedCitizens 1 ex5 := by
  decide

/-- C1 amended: the paginate step uses page size 10 and pageCount equal
to ceil(filteredCount / 10); every page index between 1 and pageCount
yields a non-empty page; the Previous control clamps navigation to at
least 1 and the Next control clamps it to at most pageCount; but the
paginate step itself does not clamp: a page index above pageCount
yields an empty page. -/
theorem paginate_window_amended (l : List Citizen) (p : Int) :
    (1 ≤ p → p ≤ (totalPages l : Int) → paginatedCitizens p l ≠ [])
    ∧ ((totalPages l : Int) < p → paginatedCitizens p l = [])
    ∧ 1 ≤ prevClick p
    ∧ nextClick p (totalPages l : Int) ≤ (totalPages l : Int) := by
  refine ⟨?_, ?_, le_max_right _ _, min_le_right _ _⟩
  · intro h1 h2
    obtain ⟨i, rfl⟩ : ∃ i : Nat, p = (i : Int) + 1 := ⟨(p - 1).toNat, by omega⟩
    rw [paginated_eq_chunk]
    have hlen : 10 * i < l.length := by
      unfold totalPages at h2; omega
    intro hnil
    have hl := congrArg List.length hnil
    simp only [List.length_take, List.length_drop, List.length_nil] at hl
    omega
  · intro h
    have h1 : 1 ≤ p := by omega
    obtain ⟨i, rfl⟩ : ∃ i : Nat, p = (i : Int) + 1 := ⟨(p - 1).toNat, by omega⟩
    rw [paginated_eq_chunk]
    have : l.length ≤ 10 * i := by unfold totalPages at h; omega
    rw [List.drop_eq_nil_of_le this]
    rfl

/-- Witness for the amended pagination claim: page 1 of the non-empty
five-citizen snapshot is non-empty. -/
theorem paginate_window_amended_witness :
    (1 : Int) ≤ (totalPages ex5 : Int) ∧ paginatedCitizens 1 ex5 ≠ [] :=
  ⟨by decide, (paginate_window_amended ex5 1).1 (by decide) (by decide)⟩

/-- C6: concatenating the pages returned for page indices 1 through
pageCount, in order, reproduces the filtered-and-sorted sequence
exactly, with no duplicates and no omissions. -/
theorem pages_partition (st : SearchType) (term : String) (sf : SortField)
    (so : SortOrder) (cs : List Citizen) :
    pagesConcat (sortedCitizens sf so (filteredCitizens st term cs))
      = sortedCitizens sf so (filteredCitizens st term cs) := by
  generalize sortedCitizens sf so (filteredCitizens st term cs) = l
  unfold pagesConcat
  simp only [paginated_eq_chunk]
  rw [chunks_take]
  exact List.take_of_length_le (by unfold totalPages; omega)

theorem intRange_four (a : Int) : intRange a (a + 3) = [a, a + 1, a + 2, a + 3] := by
  have h : (a + 3 - a + 1).toNat = 4 := by omega
  unfold intRange
  rw [h, show List.range 4 = [0, 1, 2, 3] from by decide]
  simp

/-- C5: the page-number window generator returns pages 1..T when T is
at most 5; the leading window, ellipsis and last page when the current
page is at most 3; the first page, ellipsis and trailing window of four
when the current page is at least T-2; and first page, ellipsis, the
three pages around the current one, ellipsis and last page otherwise;
with the concrete instances T=12 C=1, T=12 C=10 and T=4. -/
theorem page_window :
    (∀ T C : Int, 1 ≤ T → 1 ≤ C → C ≤ T →
      ((T ≤ 5 → getPageNumbers T C = (intRange 1 T).map PageItem.num)
      ∧ (5 < T → C ≤ 3 →
          getPageNumbers T C = [PageItem.num 1, PageItem.num 2, PageItem.num 3,
            PageItem.num 4, PageItem.ellipsis, PageItem.num T])
      ∧ (5 < T → T - 2 ≤ C →
          getPageNumbers T C = [PageItem.num 1, PageItem.ellipsis,
            PageItem.num (T - 3), PageItem.num (T - 2), PageItem.num (T - 1),
            PageItem.num T])
      ∧ (5 < T → 3 < C → C < T - 2 →
          getPageNumbers T C = [PageItem.num 1, PageItem.ellipsis,
            PageItem.num (C - 1), PageItem.num C, PageItem.num (C + 1),
            PageItem.ellipsis, PageItem.num T])))
    ∧ getPageNumbers 12 1 = [PageItem.num 1, PageItem.num 2, PageItem.num 3,
        PageItem.num 4, PageItem.ellipsis, PageItem.num 12]
    ∧ getPageNumbers 12 10 = [PageItem.num 1, PageItem.ellipsis, PageItem.num 9,
        PageItem.num 10, PageItem.num 11, PageItem.num 12]
    ∧ getPageNumbers 4 2 = [PageItem.num 1, PageItem.num 2, PageItem.num 3,
        PageItem.num 4] := by
  refine ⟨?_, by decide, by decide, by decide⟩
  intro T C hT hC hCT
  refine ⟨?_, ?_, ?_, ?_⟩
  · intro h5
    simp [getPageNumbers, h5]
  · intro h5 h3
    unfold getPageNumbers
    rw [if_neg (by omega), if_pos h3,
      show intRange 1 4 = [1, 2, 3, 4] from by decide]
    rfl
  · intro h5 hge
    unfold getPageNumbers
    rw [if_neg (by omega), if_neg (by omega), if_pos hge]
    have h4 := intRange_four (T - 3)
    rw [show T - 3 + 3 = T from by ring] at h4
    rw [h4]
    simp
    omega
  · intro h5 h3 hlt
    unfold getPageNumbers
    rw [if_neg (by omega), if_neg (by omega), if_neg (by omega)]

/-- Witness for the page-number window claim at T=12, C=10. -/
theorem page_window_witness :
    getPageNumbers 12 10 = [PageItem.num 1, PageItem.ellipsis, PageItem.num 9,
      PageItem.num 10, PageItem.num 11, PageItem.num 12] := by
  have h := (page_window.1 12 10 (by norm_num) (by norm_num) (by norm_num)).2.2.1
    (by norm_num) (by norm_num)
  norm_num at h
  exact h

/-! ## Form validation claim theorems -/

/-- Form filled like the seeded sample citizen, with spouse name and
remarks left empty and education and occupation empty as well (the
schema places no length rule on them). -/
def exFormGood : CitizenForm :=
  { aadhar_number := "123456789012", village_id := some "1",
    name := "Raj Kumar", dob := "1985-05-15", age := "38", gender := "male",
    address := "House No. 123, Rampur", marital_status := "married",
    father_name := "Mohan Lal", mother_name := "Kamla Devi",
    spouse_name := "", status := "alive", education := "", occupation := "",
    remarks := "" }

/-- The same form with father name and mother name both empty. -/
def exFormEmptyParents : CitizenForm :=
  { exFormGood with father_name := "", mother_name := "" }

/-- C8 counterexample: the form passing validation stops passing as soon
as father name and mother name are emptied, so those two fields are not
optional at the wizard boundary. -/
theorem parent_names_required_counterexample :
    citizenFormValid exFormGood = true
    ∧ citizenFormValid exFormEmptyParents = false := by
  decide

/-- C8 amended: spouse name and remarks are the optional citizen form
fields — a form that leaves them empty passes validation — but the
wizard requires father name and mother name to be at least two
characters (they are nullable only in the database schema), so every
form that passes validation has father and mother names of length at
least 2. -/
theorem parent_names_required :
    (∀ f : CitizenForm, citizenFormValid f = true →
      2 ≤ f.father_name.length ∧ 2 ≤ f.mother_name.length)
    ∧ citizenFormValid exFormGood = true
    ∧ exFormGood.spouse_name = ""
    ∧ exFormGood.remarks = "" := by
  refine ⟨?_, by decide, rfl, rfl⟩
  intro f h
  simp only [citizenFormValid, Bool.and_eq_true, decide_eq_true_eq] at h
  exact ⟨h.1.1.2, h.1.2⟩

/-- Witness for the amended optional-fields claim at the sample form. -/
theorem parent_names_required_witness :
    2 ≤ exFormGood.father_name.length ∧ 2 ≤ exFormGood.mother_name.length :=
  parent_names_required.1 exFormGood (by decide)

/-- Otherwise valid form whose village selection is the default empty
string. -/
def exFormNoVillage : CitizenForm :=
  { exFormGood with village_id := some "" }

/-- C9: a form whose village selection is the default empty string
passes validation, because the village rule rejects only an absent
value; the submitted citizen then carries parseInt of the empty string
(NaN, modelled as none) as its village reference, and the required
village error cannot fire for this input. -/
theorem empty_village_id_accepted :
    citizenFormValid exFormNoVillage = true
    ∧ exFormNoVillage.village_id = some ""
    ∧ villageIdRule (some "") = true
    ∧ villageIdRule none = false
    ∧ jsParseInt "" = none
    ∧ (citizenDataOfForm exFormNoVillage).village_id = none := by
  decide

end Panchayat
